import Mathlib

/-!
Shallow embedding of the authentication and authorization subsystem of the
daycare management platform (files `app/services/auth_service.py`,
`app/repositories/user_repository.py`, `app/repositories/school_repository.py`,
`app/auth/dependencies.py`).

Modelling conventions:
 - the SQLite tables `users`, `schools`, `refresh_tokens` become lists of
   records in row (rowid) order; `fetchone` on a filtered SELECT becomes
   `List.find?` with the WHERE clause as the predicate;
 - autoincrement rowids become `max existing id + 1`;
 - timestamps are `Int` (the ISO strings of the source are totally ordered by
   the instant they denote; comparisons in the source are instant comparisons);
 - bcrypt hashing/verification, SHA-256 token hashing and the HMAC signature
   of PyJWT are abstract function parameters collected in `Crypto`;
 - `jwt.decode` verifies the signature and then rejects when `exp <= now`
   (PyJWT raises `ExpiredSignatureError` when the expiry is not in the
   future); both failures return `none` as in `decode_access_token`;
 - functions returning `(payload, error)` pairs in Python become pairs of
   `Option` results together with the post-state.
-/

namespace DaycareAuth

/-- Closed role enumeration from `app/schemas/auth.py` (`UserRole`). -/
inductive UserRole where
  | ADMIN
  | DIRECTOR
  | TEACHER
  | PARENT
deriving DecidableEq, Repr

/-- String value of a role, as stored in the database (`role.value`). -/
def UserRole.value : UserRole → String
  | .ADMIN => "ADMIN"
  | .DIRECTOR => "DIRECTOR"
  | .TEACHER => "TEACHER"
  | .PARENT => "PARENT"

/-- Row of the `users` table. The `role` column is the string value of a
`UserRole`, exactly as persisted by `UserRepository.create`. -/
structure User where
  user_id : Nat
  email : String
  password_hash : String
  first_name : String
  last_name : String
  role : String
  school_id : Option Nat
  phone : Option String
  address : Option String
  created_date : String
  is_deleted : Bool
deriving DecidableEq, Repr

/-- Row of the `schools` table; only the columns consulted by the auth
subsystem (`SchoolRepository.get_by_id` / `exists`) are modelled. -/
structure School where
  school_id : Nat
  school_name : String
  is_deleted : Bool
deriving DecidableEq, Repr

/-- Row of the `refresh_tokens` table. -/
structure RefreshTokenRecord where
  token_id : Nat
  user_id : Nat
  token_hash : String
  expires_at : Int
  created_at : Int
  revoked : Bool
deriving DecidableEq, Repr

/-- The database state seen by the auth subsystem. -/
structure AppState where
  users : List User
  schools : List School
  tokens : List RefreshTokenRecord
deriving DecidableEq, Repr

/-- Claims of the JWT access token built by `_create_access_token`. -/
structure AccessPayload where
  sub : Nat
  role : String
  school_id : Option Nat
  iat : Int
  exp : Int
deriving DecidableEq, Repr

/-- A signed JWT: its payload and the signature string over the payload. -/
structure SignedToken where
  payload : AccessPayload
  sig : String
deriving DecidableEq, Repr

/-- Abstract cryptographic primitives: bcrypt password hash/verify
(`_hash_password`, `_verify_password`), SHA-256 refresh-token hashing
(`_hash_token`), and the HS256 signature computed by `jwt.encode`. -/
structure Crypto where
  hash_password : String → String
  verify_password : String → String → Bool
  hash_token : String → String
  sign : String → AccessPayload → String

end DaycareAuth

namespace DaycareAuth

def ACCESS_TOKEN_EXPIRE_MINUTES : Int := 15

def REFRESH_TOKEN_EXPIRE_DAYS : Int := 7

/-- Response shape of login/refresh (`TokenResponse` in `app/schemas/auth.py`). -/
structure TokenResponse where
  access_token : SignedToken
  refresh_token : String
  token_type : String
  expires_in : Int
deriving DecidableEq, Repr

/-- Public projection of a user (`UserResponse`): excludes the password hash. -/
structure UserResponse where
  user_id : Nat
  email : String
  first_name : String
  last_name : String
  role : String
  school_id : Option Nat
  phone : Option String
  address : Option String
  created_date : String
deriving DecidableEq, Repr

/-- Registration request (`UserRegister`). -/
structure UserRegister where
  email : String
  password : String
  first_name : String
  last_name : String
  role : UserRole
  school_id : Option Nat
  phone : Option String
  address : Option String
deriving DecidableEq, Repr

/-- Next autoincrement rowid for the `refresh_tokens` table. -/
def freshTokenId (tokens : List RefreshTokenRecord) : Nat :=
  (tokens.foldr (fun r m => max r.token_id m) 0) + 1

/-- Next autoincrement rowid for the `users` table. -/
def freshUserId (users : List User) : Nat :=
  (users.foldr (fun u m => max u.user_id m) 0) + 1

/-- SELECT u FROM users WHERE user_id = uid AND is_deleted = 0
(`UserRepository.get_by_id`). -/
def get_by_id (s : AppState) (uid : Nat) : Option User :=
  s.users.find? (fun u => u.user_id == uid && !u.is_deleted)

/-- SELECT u FROM users WHERE email = e AND is_deleted = 0
(`UserRepository.get_by_email`). -/
def get_by_email (s : AppState) (email : String) : Option User :=
  s.users.find? (fun u => u.email == email && !u.is_deleted)

/-- UserRepository.email_exists. -/
def email_exists (s : AppState) (email : String) : Bool :=
  (get_by_email s email).isSome

/-- UserRepository.exists. -/
def user_exists (s : AppState) (uid : Nat) : Bool :=
  (get_by_id s uid).isSome

/-- SchoolRepository.exists (SELECT by id with is_deleted = 0). -/
def school_exists (s : AppState) (sid : Nat) : Bool :=
  (s.schools.find? (fun sc => sc.school_id == sid && !sc.is_deleted)).isSome

/-- UserRepository.store_refresh_token: INSERT a fresh row with revoked = 0. -/
def store_refresh_token (s : AppState) (uid : Nat) (token_hash : String)
    (expires_at created_at : Int) : AppState :=
  { s with tokens := s.tokens ++
      [{ token_id := freshTokenId s.tokens, user_id := uid,
         token_hash := token_hash, expires_at := expires_at,
         created_at := created_at, revoked := false }] }

/-- UserRepository.revoke_refresh_token: UPDATE refresh_tokens SET revoked = 1
WHERE token_id = tid. -/
def revoke_refresh_token (s : AppState) (tid : Nat) : AppState :=
  { s with tokens :=
      s.tokens.map (fun r =>
        if r.token_id == tid then { r with revoked := true } else r) }

/-- UserRepository.revoke_all_user_tokens: UPDATE refresh_tokens SET revoked = 1
WHERE user_id = uid AND revoked = 0. -/
def revoke_all_user_tokens (s : AppState) (uid : Nat) : AppState :=
  { s with tokens :=
      s.tokens.map (fun r =>
        if r.user_id == uid && !r.revoked then { r with revoked := true } else r) }

/-- The JOIN condition on the `users` side of the refresh lookup:
first user row with this id that is not soft-deleted. -/
def matching_user (users : List User) (uid : Nat) : Option User :=
  users.find? (fun u => u.user_id == uid && !u.is_deleted)

/-- WHERE clause of the refresh lookup on a `refresh_tokens` row:
`rt.token_hash = ? AND rt.revoked = 0 AND u.is_deleted = 0` (the join
requires a non-deleted owning user to exist). -/
def active_token_row (users : List User) (h : String) (r : RefreshTokenRecord) : Bool :=
  r.token_hash == h && !r.revoked && (matching_user users r.user_id).isSome

/-- The SELECT ... JOIN ... fetchone of `AuthService.refresh`: the first
refresh-token row matching the hash, not revoked, whose owner is not
soft-deleted, together with that owner. -/
def find_active_by_hash (s : AppState) (h : String) : Option (RefreshTokenRecord × User) :=
  match s.tokens.find? (active_token_row s.users h) with
  | none => none
  | some r =>
    match matching_user s.users r.user_id with
    | none => none
    | some u => some (r, u)

/-- The `_create_access_token` helper: payload from the user row, expiry
fifteen minutes after `now`, signed with the secret key. -/
def create_access_token (c : Crypto) (key : String) (now : Int) (u : User) : SignedToken :=
  let payload : AccessPayload :=
    { sub := u.user_id, role := u.role, school_id := u.school_id,
      iat := now, exp := now + ACCESS_TOKEN_EXPIRE_MINUTES * 60 }
  { payload := payload, sig := c.sign key payload }

/-- The `decode_access_token` function: `jwt.decode` verifies the signature
and rejects an expiry that is not in the future; on any failure the Python
function returns None. -/
def decode_access_token (c : Crypto) (key : String) (now : Int)
    (t : SignedToken) : Option AccessPayload :=
  if t.sig == c.sign key t.payload then
    if t.payload.exp ≤ now then none else some t.payload
  else none

/-- Public projection of a stored user, as built by register/whoami. -/
def toUserResponse (u : User) : UserResponse :=
  { user_id := u.user_id, email := u.email, first_name := u.first_name,
    last_name := u.last_name, role := u.role, school_id := u.school_id,
    phone := u.phone, address := u.address, created_date := u.created_date }

/-- AuthService.register. `created_date` is the current ISO datetime string
supplied by the clock. -/
def register (c : Crypto) (s : AppState) (data : UserRegister)
    (created_date : String) : (Option UserResponse × Option String) × AppState :=
  if email_exists s data.email then
    ((none, some "Email already registered"), s)
  else
    let gate : Option String :=
      if data.role == UserRole.ADMIN then none
      else
        match data.school_id with
        | none => some ("school_id is required for " ++ data.role.value ++ " role")
        | some sid => if school_exists s sid then none else some "School not found"
    match gate with
    | some msg => ((none, some msg), s)
    | none =>
      let user : User :=
        { user_id := freshUserId s.users, email := data.email,
          password_hash := c.hash_password data.password,
          first_name := data.first_name, last_name := data.last_name,
          role := data.role.value, school_id := data.school_id,
          phone := data.phone, address := data.address,
          created_date := created_date, is_deleted := false }
      ((some (toUserResponse user), none), { s with users := s.users ++ [user] })

/-- AuthService.login. `fresh_refresh` is the value produced by
`_create_refresh_token` (secrets.token_urlsafe), passed in explicitly. -/
def login (c : Crypto) (key : String) (now : Int) (fresh_refresh : String)
    (s : AppState) (email password : String) :
    (Option TokenResponse × Option String) × AppState :=
  match get_by_email s email with
  | none => ((none, some "Invalid email or password"), s)
  | some user =>
    if !(c.verify_password password user.password_hash) then
      ((none, some "Invalid email or password"), s)
    else
      let access := create_access_token c key now user
      let refresh_hash := c.hash_token fresh_refresh
      let expires_at := now + REFRESH_TOKEN_EXPIRE_DAYS * 86400
      ((some { access_token := access, refresh_token := fresh_refresh,
               token_type := "bearer",
               expires_in := ACCESS_TOKEN_EXPIRE_MINUTES * 60 }, none),
       store_refresh_token s user.user_id refresh_hash expires_at now)

/-- AuthService.refresh: rotation. Looks up the presented hash among active
rows of non-deleted users; absent fails generically; expired is eagerly
revoked and fails with the expiry message; otherwise the old row is revoked
and a new pair is issued, persisting the hash of `fresh_refresh`. -/
def refresh (c : Crypto) (key : String) (now : Int) (fresh_refresh : String)
    (s : AppState) (presented : String) :
    (Option TokenResponse × Option String) × AppState :=
  let token_hash := c.hash_token presented
  match find_active_by_hash s token_hash with
  | none => ((none, some "Invalid or expired refresh token"), s)
  | some (record, user) =>
    if record.expires_at < now then
      ((none, some "Refresh token has expired"), revoke_refresh_token s record.token_id)
    else
      let s1 := revoke_refresh_token s record.token_id
      let access := create_access_token c key now user
      let new_hash := c.hash_token fresh_refresh
      let new_expires := now + REFRESH_TOKEN_EXPIRE_DAYS * 86400
      ((some { access_token := access, refresh_token := fresh_refresh,
               token_type := "bearer",
               expires_in := ACCESS_TOKEN_EXPIRE_MINUTES * 60 }, none),
       store_refresh_token s1 user.user_id new_hash new_expires now)

/-- AuthService.logout: revoke every active token of the user, failing when
the user does not exist (or is soft-deleted). -/
def logout (s : AppState) (uid : Nat) : (Bool × Option String) × AppState :=
  if !(user_exists s uid) then
    ((false, some "User not found"), s)
  else
    ((true, none), revoke_all_user_tokens s uid)

/-- AuthService.get_user_by_id (whoami): pure read, state unchanged. -/
def get_user_by_id_service (s : AppState) (uid : Nat) :
    Option UserResponse × AppState :=
  match get_by_id s uid with
  | none => (none, s)
  | some u => (some (toUserResponse u), s)

/-- Outcome of an authorization guard: pass, or an HTTP error status with a
detail message (`HTTPException`). -/
inductive GateResult where
  | allowed
  | forbidden (status : Nat) (detail : String)
deriving DecidableEq, Repr

/-- The `check_school_ownership` gate from `app/auth/dependencies.py`:
ADMIN passes; anyone else passes exactly when the `school_id` claim of the
token equals the target school id. -/
def check_school_ownership (role : String) (user_school_id : Option Nat)
    (school_id : Nat) : GateResult :=
  if role == UserRole.ADMIN.value then .allowed
  else if user_school_id != some school_id then
    .forbidden 403 "You do not have access to this school\x27s resources"
  else .allowed

/-! Concrete instances used by the witness theorems. -/

/-- Concrete crypto operations for witnesses: deterministic tag-appending
hashes and a signature that depends on the key and the payload. -/
def cW : Crypto :=
  { hash_password := fun p => p ++ "#h",
    verify_password := fun p d => (p ++ "#h") == d,
    hash_token := fun t => t ++ "#s",
    sign := fun k p => k ++ "/" ++ p.role }

/-- Empty database. -/
def sEmpty : AppState := { users := [], schools := [], tokens := [] }

/-- A concrete expired access token whose signature is valid under `cW`. -/
def tokExp : SignedToken :=
  { payload := { sub := 1, role := "ADMIN", school_id := none, iat := 0, exp := 5 },
    sig := cW.sign "k" { sub := 1, role := "ADMIN", school_id := none, iat := 0, exp := 5 } }

/-- A soft-deleted user. -/
def uDel : User :=
  { user_id := 1, email := "d@x.y", password_hash := "pw#h",
    first_name := "D", last_name := "U", role := "PARENT",
    school_id := some 1, phone := none, address := none,
    created_date := "2024-01-01", is_deleted := true }

/-- State holding only the soft-deleted user and one of its still-active
refresh records. -/
def sDel : AppState :=
  { users := [uDel], schools := [],
    tokens := [{ token_id := 1, user_id := 1, token_hash := "t#s",
                 expires_at := 100, created_at := 0, revoked := false }] }

/-! Helper lemmas about the refresh/logout state transitions. -/

/-- A refresh attempt whose hashed token matches no active record of a
non-deleted user fails with the generic message and leaves the state
unchanged. -/
theorem refresh_of_find_none (c : Crypto) (key : String) (now : Int)
    (fr : String) (s : AppState) (t : String)
    (h : find_active_by_hash s (c.hash_token t) = none) :
    refresh c key now fr s t = ((none, some "Invalid or expired refresh token"), s) := by
  simp only [refresh, h]

/-- A refresh attempt that finds an active record whose expiry has passed
revokes that record and fails with the expiry message. -/
theorem refresh_expired (c : Crypto) (key : String) (now : Int)
    (fr : String) (s : AppState) (t : String) (r : RefreshTokenRecord) (u : User)
    (hfind : find_active_by_hash s (c.hash_token t) = some (r, u))
    (hexp : r.expires_at < now) :
    refresh c key now fr s t =
      ((none, some "Refresh token has expired"), revoke_refresh_token s r.token_id) := by
  simp only [refresh, hfind]
  simp [hexp]

/-- A refresh attempt that finds an unexpired active record revokes it and
stores a fresh record for the replacement token. -/
theorem refresh_success (c : Crypto) (key : String) (now : Int)
    (fr : String) (s : AppState) (t : String) (r : RefreshTokenRecord) (u : User)
    (hfind : find_active_by_hash s (c.hash_token t) = some (r, u))
    (hexp : ¬ r.expires_at < now) :
    refresh c key now fr s t =
      ((some { access_token := create_access_token c key now u, refresh_token := fr,
               token_type := "bearer",
               expires_in := ACCESS_TOKEN_EXPIRE_MINUTES * 60 }, none),
       store_refresh_token (revoke_refresh_token s r.token_id) u.user_id
         (c.hash_token fr) (now + REFRESH_TOKEN_EXPIRE_DAYS * 86400) now) := by
  simp only [refresh, hfind]
  simp [hexp]

/-- Inversion of a successful active-token lookup: the record is the first
matching row and the user is its non-deleted owner. -/
theorem find_active_inv (s : AppState) (h : String) (r : RefreshTokenRecord) (u : User)
    (hf : find_active_by_hash s h = some (r, u)) :
    s.tokens.find? (active_token_row s.users h) = some r ∧
    matching_user s.users r.user_id = some u := by
  unfold find_active_by_hash at hf
  cases hfind : s.tokens.find? (active_token_row s.users h) with
  | none => rw [hfind] at hf; cases hf
  | some r0 =>
    rw [hfind] at hf
    dsimp only [] at hf
    cases hu : matching_user s.users r0.user_id with
    | none => rw [hu] at hf; cases hf
    | some u0 =>
      rw [hu] at hf
      have h1 : r0 = r := congrArg Prod.fst (Option.some.inj hf)
      have h2 : u0 = u := congrArg Prod.snd (Option.some.inj hf)
      subst h1; subst h2
      exact ⟨rfl, hu⟩

/-- A logout of an existing user succeeds and revokes all active tokens of that user. -/
theorem logout_success_state (s : AppState) (uid : Nat)
    (h : user_exists s uid = true) :
    logout s uid = ((true, none), revoke_all_user_tokens s uid) := by
  unfold logout
  rw [h]
  rfl

/-- C1: for every login attempt, if the email matches no stored non-soft-deleted
principal, or the stored principal exists but password verification fails, the
call returns the failure `"Invalid email or password"` in both cases with the
state unchanged, so the two causes are indistinguishable to the caller. -/
theorem login_enumeration_safe (c : Crypto) (key : String) (now : Int)
    (fr : String) (s : AppState) (email password : String)
    (h : get_by_email s email = none ∨
      ∃ u, get_by_email s email = some u ∧
        c.verify_password password u.password_hash = false) :
    login c key now fr s email password =
      ((none, some "Invalid email or password"), s) := by
  unfold login
  rcases h with h | ⟨u, hu, hv⟩
  · rw [h]
  · rw [hu]
    dsimp only []
    rw [hv]
    rfl

/-- C1 witness: both failure causes at concrete inputs give the same result. -/
theorem login_enumeration_safe_witness :
    login cW "k" 0 "r" sEmpty "a@b.c" "pw" =
      ((none, some "Invalid email or password"), sEmpty) :=
  login_enumeration_safe cW "k" 0 "r" sEmpty "a@b.c" "pw" (Or.inl rfl)

/-- C5: an access token whose expiry lies before the validation-time clock is
rejected (decodes to nothing) even when its signature is the one computed from
the signing key; decoding succeeds exactly when the signature matches and the
expiry is still in the future, with no reference to any stored state. -/
theorem access_token_expiry_rejected (c : Crypto) (key : String) (now : Int)
    (t : SignedToken) :
    (t.payload.exp < now → decode_access_token c key now t = none) ∧
    (decode_access_token c key now t = some t.payload ↔
      t.sig = c.sign key t.payload ∧ now < t.payload.exp) := by
  unfold decode_access_token
  constructor
  · intro hlt
    by_cases hs : t.sig == c.sign key t.payload
    · simp [hs, le_of_lt hlt]
    · simp [hs]
  · by_cases hs : t.sig = c.sign key t.payload
    · by_cases he : t.payload.exp ≤ now
      · simp [hs, he, not_lt.mpr he]
      · simp [hs, he, not_le.mp he]
    · simp [hs]

/-- C5 witness: a concrete expired token with a valid signature is rejected. -/
theorem access_token_expiry_rejected_witness :
    (tokExp.payload.exp < 10 ∧ tokExp.sig = cW.sign "k" tokExp.payload) ∧
    decode_access_token cW "k" 10 tokExp = none :=
  ⟨⟨by decide, rfl⟩, (access_token_expiry_rejected cW "k" 10 tokExp).1 (by decide)⟩

/-- C6: the tenant-ownership gate: the ADMIN role always passes; every other
role passes exactly when its claimed school id equals the target school id;
and a non-ADMIN principal with no school id always fails with the 403
forbidden error. -/
theorem school_ownership_gate (role : String) (usid : Option Nat) (sid : Nat) :
    (role = "ADMIN" → check_school_ownership role usid sid = .allowed) ∧
    (role ≠ "ADMIN" →
      (check_school_ownership role usid sid = .allowed ↔ usid = some sid)) ∧
    (role ≠ "ADMIN" → usid = none →
      check_school_ownership role usid sid =
        .forbidden 403 "You do not have access to this school\x27s resources") := by
  unfold check_school_ownership
  refine ⟨fun ha => by simp [ha, UserRole.value], fun ha => ?_, fun ha hn => ?_⟩
  · by_cases hm : usid = some sid
    · simp [ha, hm, UserRole.value]
    · simp [ha, hm, UserRole.value]
  · simp [ha, hn, UserRole.value]

/-- C6 witness: concrete gate evaluations for each clause. -/
theorem school_ownership_gate_witness :
    check_school_ownership "ADMIN" none 5 = .allowed ∧
    check_school_ownership "PARENT" (some 5) 5 = .allowed ∧
    check_school_ownership "PARENT" none 5 =
      .forbidden 403 "You do not have access to this school\x27s resources" :=
  ⟨(school_ownership_gate "ADMIN" none 5).1 rfl,
   ((school_ownership_gate "PARENT" (some 5) 5).2.1 (by decide)).mpr rfl,
   (school_ownership_gate "PARENT" none 5).2.2 (by decide) rfl⟩

/-- C10: logout for a principal id with no existing non-soft-deleted user
(including a soft-deleted one) fails with `"User not found"` and leaves the
whole state, in particular the refresh-token store, unchanged. -/
theorem logout_unknown_user (s : AppState) (uid : Nat)
    (h : user_exists s uid = false) :
    logout s uid = ((false, some "User not found"), s) := by
  unfold logout
  rw [h]
  rfl

/-- C10 witness: a soft-deleted user with a still-active refresh record; the
logout attempt fails and the record stays untouched. -/
theorem logout_unknown_user_witness :
    (user_exists sDel 1 = false ∧
      (sDel.tokens.map (fun r => r.revoked)) = [false]) ∧
    logout sDel 1 = ((false, some "User not found"), sDel) :=
  ⟨⟨by decide, by decide⟩, logout_unknown_user sDel 1 (by decide)⟩

/-- A registered (non-deleted) user holding the email `a@b.c`. -/
def uDup : User :=
  { user_id := 1, email := "a@b.c", password_hash := "pw#h",
    first_name := "A", last_name := "B", role := "PARENT",
    school_id := some 1, phone := none, address := none,
    created_date := "2024-01-01", is_deleted := false }

/-- State in which `a@b.c` is already registered. -/
def sDup : AppState := { users := [uDup], schools := [], tokens := [] }

/-- A PARENT registration request with no school id, reusing `a@b.c`. -/
def regDup : UserRegister :=
  { email := "a@b.c", password := "pw", first_name := "A", last_name := "B",
    role := .PARENT, school_id := none, phone := none, address := none }

/-- C7 counterexample: a registration request with a non-ADMIN role and an
absent school id does not always fail with the missing-school-id message:
when the email is already registered, the duplicate-email check runs first
and the call fails with `"Email already registered"` instead. -/
theorem register_email_check_first :
    (regDup.role ≠ UserRole.ADMIN ∧ regDup.school_id = none) ∧
    (register cW sDup regDup "2024-02-02").1.2 = some "Email already registered" ∧
    (register cW sDup regDup "2024-02-02").1.2 ≠
      some ("school_id is required for " ++ regDup.role.value ++ " role") := by
  exact ⟨⟨by decide, rfl⟩, by decide, by decide⟩

/-- C7 amended: for a registration request whose email is not already
registered and whose role is not ADMIN, register fails with the
missing-school-id validation message when the school id is absent, and with
`"School not found"` when the given school id does not exist; in both cases
the state is unchanged, so no principal is created. -/
theorem register_school_validation (c : Crypto) (s : AppState)
    (d : UserRegister) (cd : String)
    (hemail : email_exists s d.email = false)
    (hrole : d.role ≠ UserRole.ADMIN) :
    (d.school_id = none →
      register c s d cd =
        ((none, some ("school_id is required for " ++ d.role.value ++ " role")), s)) ∧
    (∀ sid, d.school_id = some sid → school_exists s sid = false →
      register c s d cd = ((none, some "School not found"), s)) := by
  have hr : (d.role == UserRole.ADMIN) = false := by
    simp [hrole]
  constructor
  · intro hs
    unfold register
    rw [hemail, hr, hs]
    rfl
  · intro sid hs hex
    unfold register
    rw [hemail, hr, hs]
    dsimp only []
    rw [hex]
    rfl

/-- A PARENT registration request with a fresh email and no school id. -/
def regNoSchool : UserRegister :=
  { email := "n@b.c", password := "pw", first_name := "N", last_name := "B",
    role := .PARENT, school_id := none, phone := none, address := none }

/-- A DIRECTOR registration request naming a nonexistent school. -/
def regBadSchool : UserRegister :=
  { email := "m@b.c", password := "pw", first_name := "M", last_name := "B",
    role := .DIRECTOR, school_id := some 42, phone := none, address := none }

/-- C7 witness: both validation failures at concrete inputs leave the state
unchanged and carry the expected messages. -/
theorem register_school_validation_witness :
    register cW sEmpty regNoSchool "2024-02-02" =
      ((none, some ("school_id is required for " ++ UserRole.PARENT.value ++ " role")), sEmpty) ∧
    register cW sEmpty regBadSchool "2024-02-02" =
      ((none, some "School not found"), sEmpty) :=
  ⟨(register_school_validation cW sEmpty regNoSchool "2024-02-02" rfl (by decide)).1 rfl,
   (register_school_validation cW sEmpty regBadSchool "2024-02-02" rfl (by decide)).2 42 rfl rfl⟩

/-- C8: for a stored non-soft-deleted principal found by email, logging in
with a password that verifies against its stored hash succeeds, and decoding
the returned access token (within the token lifetime, under the same key)
yields claims whose subject, role and school id equal those of the stored principal. -/
theorem login_roundtrip (c : Crypto) (key : String) (now now2 : Int)
    (fr : String) (s : AppState) (email password : String) (u : User)
    (hu : get_by_email s email = some u)
    (hpw : c.verify_password password u.password_hash = true)
    (hwin : now2 < now + ACCESS_TOKEN_EXPIRE_MINUTES * 60) :
    ∃ resp, (login c key now fr s email password).1 = (some resp, none) ∧
      ∃ claims, decode_access_token c key now2 resp.access_token = some claims ∧
        claims.sub = u.user_id ∧ claims.role = u.role ∧
        claims.school_id = u.school_id := by
  refine ⟨{ access_token := create_access_token c key now u, refresh_token := fr,
            token_type := "bearer",
            expires_in := ACCESS_TOKEN_EXPIRE_MINUTES * 60 }, ?_, ?_⟩
  · unfold login
    rw [hu]
    dsimp only []
    rw [hpw]
    rfl
  · refine ⟨{ sub := u.user_id, role := u.role, school_id := u.school_id,
              iat := now, exp := now + ACCESS_TOKEN_EXPIRE_MINUTES * 60 },
      ?_, rfl, rfl, rfl⟩
    unfold decode_access_token create_access_token
    simp [not_le.mpr hwin]

/-- A live DIRECTOR user whose password hash matches `cW.hash_password "pw"`. -/
def uLive : User :=
  { user_id := 2, email := "l@x.y", password_hash := "pw#h",
    first_name := "L", last_name := "V", role := "DIRECTOR",
    school_id := some 3, phone := none, address := none,
    created_date := "2024-01-01", is_deleted := false }

/-- State holding only the live user. -/
def sLive : AppState := { users := [uLive], schools := [], tokens := [] }

/-- C8 witness: a concrete login followed by a decode recovers the stored
identity, role and school id. -/
theorem login_roundtrip_witness :
    ∃ resp, (login cW "k" 0 "r" sLive "l@x.y" "pw").1 = (some resp, none) ∧
      ∃ claims, decode_access_token cW "k" 0 resp.access_token = some claims ∧
        claims.sub = uLive.user_id ∧ claims.role = uLive.role ∧
        claims.school_id = uLive.school_id :=
  login_roundtrip cW "k" 0 0 "r" sLive "l@x.y" "pw" uLive rfl (by decide) (by decide)

/-- A live user owning one refresh record whose expiry has already passed
(`cW.hash_token "t" = "t#s"`). -/
def sExp : AppState :=
  { users := [{ user_id := 1, email := "e@x.y", password_hash := "pw#h",
                first_name := "E", last_name := "X", role := "PARENT",
                school_id := some 1, phone := none, address := none,
                created_date := "2024-01-01", is_deleted := false }],
    schools := [],
    tokens := [{ token_id := 1, user_id := 1, token_hash := "t#s",
                 expires_at := -1, created_at := -2, revoked := false }] }

/-- C3 counterexample: a presented token whose active record is expired fails
with `"Refresh token has expired"`, while a never-issued token fails with
`"Invalid or expired refresh token"`: two distinct caller-visible messages
within the refresh-credential category, so the expiry sub-check is revealed. -/
theorem refresh_messages_distinguish_expiry :
    ((refresh cW "k" 0 "f" sExp "t").1).2 = some "Refresh token has expired" ∧
    ((refresh cW "k" 0 "f" sExp "z").1).2 = some "Invalid or expired refresh token" ∧
    ((refresh cW "k" 0 "f" sExp "t").1).2 ≠ ((refresh cW "k" 0 "f" sExp "z").1).2 :=
  ⟨by decide, by decide, by decide⟩

/-- C3 amended: a failing refresh surfaces one of two messages: when no
active matching record of a non-deleted owner exists (covering never-issued,
already-revoked and soft-deleted-owner tokens alike) the caller gets the one
generic message `"Invalid or expired refresh token"` with the state
unchanged — in particular a well-formed but already-revoked token and a
never-issued token produce identical caller-visible results; but a matching
active record whose expiry has passed yields the distinct message
`"Refresh token has expired"`, revealing the expiry sub-check. -/
theorem refresh_failure_categories (c : Crypto) (key : String) (now : Int)
    (fr : String) (s : AppState) (t : String) :
    (find_active_by_hash s (c.hash_token t) = none →
      refresh c key now fr s t =
        ((none, some "Invalid or expired refresh token"), s)) ∧
    (∀ r u, find_active_by_hash s (c.hash_token t) = some (r, u) →
      r.expires_at < now →
      refresh c key now fr s t =
        ((none, some "Refresh token has expired"), revoke_refresh_token s r.token_id)) :=
  ⟨refresh_of_find_none c key now fr s t,
   fun r u hf he => refresh_expired c key now fr s t r u hf he⟩

/-- C3 witness: the generic branch of the amended statement at a concrete
never-issued token. -/
theorem refresh_failure_categories_witness :
    refresh cW "k" 0 "f" sExp "z" =
      ((none, some "Invalid or expired refresh token"), sExp) :=
  (refresh_failure_categories cW "k" 0 "f" sExp "z").1 (by decide)

/-- After rotation revokes the matched record and inserts the replacement
(whose hash differs), no active record with the presented hash remains,
provided the presented hash matched only that one record. -/
theorem no_active_match_after_rotation (s : AppState) (h h2 : String)
    (r : RefreshTokenRecord)
    (huniq : ∀ r1 ∈ s.tokens, r1.token_hash = h → r1 = r)
    (hneq : h2 ≠ h) (uid : Nat) (e cr : Int) :
    find_active_by_hash
      (store_refresh_token (revoke_refresh_token s r.token_id) uid h2 e cr) h = none := by
  have hfind : (store_refresh_token (revoke_refresh_token s r.token_id) uid h2 e cr).tokens.find?
      (active_token_row
        (store_refresh_token (revoke_refresh_token s r.token_id) uid h2 e cr).users h) = none := by
    rw [List.find?_eq_none]
    intro x hx
    simp only [store_refresh_token, revoke_refresh_token, List.mem_append] at hx
    rcases hx with hx1 | hx2
    · obtain ⟨y, hy, rfl⟩ := List.mem_map.mp hx1
      by_cases hid : (y.token_id == r.token_id) = true
      · simp [active_token_row, hid]
      · have hyh : y.token_hash ≠ h := by
          intro hcontra
          exact hid (by rw [huniq y hy hcontra]; simp)
        simp [active_token_row, hid, hyh]
    · rw [List.mem_singleton] at hx2
      subst hx2
      simp [active_token_row, hneq]
  unfold find_active_by_hash
  rw [hfind]

/-- C2: if a rotation of token `t` succeeds, then rotating `t` again against
the resulting store fails with the generic failure and leaves the store
unchanged, assuming the freshly issued replacement hashes differently from
`t` and that at most one stored record carries the hash of `t` (the
negligible-collision invariant of the spec for high-entropy tokens). -/
theorem rotate_twice_fails (c : Crypto) (key : String) (now now2 : Int)
    (fr fr2 : String) (s : AppState) (t : String)
    (hfr : c.hash_token fr ≠ c.hash_token t)
    (huniq : ∀ r1 ∈ s.tokens, ∀ r2 ∈ s.tokens,
      r1.token_hash = c.hash_token t → r2.token_hash = c.hash_token t → r1 = r2)
    (hsucc : (((refresh c key now fr s t).1).1).isSome = true) :
    refresh c key now2 fr2 ((refresh c key now fr s t).2) t =
      ((none, some "Invalid or expired refresh token"),
       (refresh c key now fr s t).2) := by
  cases hfind : find_active_by_hash s (c.hash_token t) with
  | none =>
    rw [refresh_of_find_none c key now fr s t hfind] at hsucc
    simp at hsucc
  | some ru =>
    obtain ⟨r, u⟩ := ru
    by_cases hexp : r.expires_at < now
    · rw [refresh_expired c key now fr s t r u hfind hexp] at hsucc
      simp at hsucc
    · rw [refresh_success c key now fr s t r u hfind hexp]
      have hinv := find_active_inv s (c.hash_token t) r u hfind
      have hmem := List.mem_of_find?_eq_some hinv.1
      have hpred := List.find?_some hinv.1
      have hhash : r.token_hash = c.hash_token t := by
        simp [active_token_row] at hpred
        exact hpred.1.1
      exact refresh_of_find_none c key now2 fr2 _ t
        (no_active_match_after_rotation s (c.hash_token t) (c.hash_token fr) r
          (fun r1 h1 hh => huniq r1 h1 r hmem hh hhash) hfr u.user_id _ _)

/-- A live user owning one unexpired active refresh record
(`cW.hash_token "t" = "t#s"`). -/
def sRot : AppState :=
  { users := [{ user_id := 1, email := "r@x.y", password_hash := "pw#h",
                first_name := "R", last_name := "X", role := "PARENT",
                school_id := some 1, phone := none, address := none,
                created_date := "2024-01-01", is_deleted := false }],
    schools := [],
    tokens := [{ token_id := 1, user_id := 1, token_hash := "t#s",
                 expires_at := 100, created_at := 0, revoked := false }] }

/-- C2 witness: after one concrete successful rotation, rotating the same
token again fails. -/
theorem rotate_twice_fails_witness :
    ((((refresh cW "k" 0 "f" sRot "t").1).1).isSome = true) ∧
    refresh cW "k" 1 "g" ((refresh cW "k" 0 "f" sRot "t").2) "t" =
      ((none, some "Invalid or expired refresh token"),
       (refresh cW "k" 0 "f" sRot "t").2) :=
  ⟨by decide,
   rotate_twice_fails cW "k" 0 1 "f" "g" sRot "t" (by decide)
     (by
       intro r1 h1 r2 h2 e1 e2
       have h1 := List.mem_singleton.mp h1
       have h2 := List.mem_singleton.mp h2
       rw [h1, h2])
     (by decide)⟩

/-- After revoking every active token of a user, no active record whose hash
belongs to that user remains. -/
theorem no_active_match_after_revoke_all (s : AppState) (p : Nat) (h : String)
    (howner : ∀ r ∈ s.tokens, r.token_hash = h → r.user_id = p) :
    find_active_by_hash (revoke_all_user_tokens s p) h = none := by
  have hfind : (revoke_all_user_tokens s p).tokens.find?
      (active_token_row (revoke_all_user_tokens s p).users h) = none := by
    rw [List.find?_eq_none]
    intro x hx
    simp only [revoke_all_user_tokens] at hx
    obtain ⟨y, hy, rfl⟩ := List.mem_map.mp hx
    by_cases hh : y.token_hash = h
    · have hup : y.user_id = p := howner y hy hh
      cases hrv : y.revoked <;> simp [active_token_row, hup, hrv]
    · by_cases hc : (y.user_id == p && !y.revoked) = true
      · simp [active_token_row, hc, hh]
      · simp [active_token_row, hc, hh]
  unfold find_active_by_hash
  rw [hfind]

/-- C4: after a successful logout of principal `p`, rotating any refresh
token issued to `p` (every stored record carrying the hash of that token
belongs to `p`) fails with the generic failure and leaves the store unchanged,
because logout revoked every active record of `p` and the lookup only
matches non-revoked records. -/
theorem logout_invalidates_refresh (c : Crypto) (key : String) (now2 : Int)
    (fr2 : String) (s : AppState) (p : Nat) (t : String)
    (hexists : user_exists s p = true)
    (howner : ∀ r ∈ s.tokens, r.token_hash = c.hash_token t → r.user_id = p) :
    refresh c key now2 fr2 ((logout s p).2) t =
      ((none, some "Invalid or expired refresh token"), (logout s p).2) := by
  rw [logout_success_state s p hexists]
  exact refresh_of_find_none c key now2 fr2 _ t
    (no_active_match_after_revoke_all s p (c.hash_token t) howner)

/-- C4 witness: a concrete logout after which the previously issued token no
longer rotates. -/
theorem logout_invalidates_refresh_witness :
    (user_exists sRot 1 = true) ∧
    refresh cW "k" 0 "g" ((logout sRot 1).2) "t" =
      ((none, some "Invalid or expired refresh token"), (logout sRot 1).2) :=
  ⟨by decide,
   logout_invalidates_refresh cW "k" 0 "g" sRot 1 "t" (by decide)
     (by
       intro r hr hh
       have hr := List.mem_singleton.mp hr
       rw [hr])⟩

/-- Row-wise one-way revocation: every row whose revoked flag is set in the
first table still has it set at the same row of the second table (rows are
kept in rowid order; UPDATE preserves positions and INSERT appends). -/
def revoked_preserved (l l2 : List RefreshTokenRecord) : Prop :=
  ∀ i : Nat, ∀ hi : i < l.length, ∀ hi2 : i < l2.length,
    (l.get ⟨i, hi⟩).revoked = true → (l2.get ⟨i, hi2⟩).revoked = true

theorem revoked_preserved_refl (l : List RefreshTokenRecord) :
    revoked_preserved l l :=
  fun _ _ _ hr => hr

theorem revoked_preserved_map_append
    (f : RefreshTokenRecord → RefreshTokenRecord)
    (hf : ∀ r, r.revoked = true → (f r).revoked = true)
    (l tail : List RefreshTokenRecord) :
    revoked_preserved l (l.map f ++ tail) := by
  intro i hi hi2 hr
  have hm : i < (l.map f).length := by simpa using hi
  have hget : (l.map f ++ tail).get ⟨i, hi2⟩ = f (l.get ⟨i, hi⟩) := by
    rw [List.get_eq_getElem, List.get_eq_getElem, List.getElem_append_left hm,
      List.getElem_map]
  rw [hget]
  exact hf _ hr

theorem revoked_preserved_map
    (f : RefreshTokenRecord → RefreshTokenRecord)
    (hf : ∀ r, r.revoked = true → (f r).revoked = true)
    (l : List RefreshTokenRecord) :
    revoked_preserved l (l.map f) := by
  have h := revoked_preserved_map_append f hf l []
  simpa using h

theorem revoked_preserved_append (l tail : List RefreshTokenRecord) :
    revoked_preserved l (l ++ tail) := by
  have h := revoked_preserved_map_append id (fun _ hr => hr) l tail
  simpa using h

theorem revoke_fn_monotone (tid : Nat) (x : RefreshTokenRecord)
    (hx : x.revoked = true) :
    (if x.token_id == tid then { x with revoked := true } else x).revoked = true := by
  by_cases h : (x.token_id == tid) = true <;> simp [h, hx]

theorem revoke_all_fn_monotone (p : Nat) (x : RefreshTokenRecord)
    (hx : x.revoked = true) :
    (if x.user_id == p && !x.revoked then { x with revoked := true } else x).revoked = true := by
  by_cases h : (x.user_id == p && !x.revoked) = true <;> simp [h, hx]

/-- Register never touches the refresh-token table. -/
theorem register_tokens_eq (c : Crypto) (s : AppState) (d : UserRegister)
    (cd : String) : ((register c s d cd).2).tokens = s.tokens := by
  unfold register
  repeat' split
  all_goals rfl

theorem login_preserves (c : Crypto) (key : String) (now : Int) (fr : String)
    (s : AppState) (email password : String) :
    revoked_preserved s.tokens (((login c key now fr s email password).2).tokens) := by
  unfold login
  cases hu : get_by_email s email with
  | none => exact revoked_preserved_refl s.tokens
  | some u =>
    dsimp only []
    by_cases hv : c.verify_password password u.password_hash = true
    · simp only [hv, Bool.not_true, Bool.false_eq_true, if_false]
      exact revoked_preserved_append s.tokens _
    · simp only [Bool.not_eq_true] at hv
      simp only [hv, Bool.not_false, if_true]
      exact revoked_preserved_refl s.tokens

theorem refresh_preserves (c : Crypto) (key : String) (now : Int) (fr : String)
    (s : AppState) (t : String) :
    revoked_preserved s.tokens (((refresh c key now fr s t).2).tokens) := by
  cases hfind : find_active_by_hash s (c.hash_token t) with
  | none =>
    rw [refresh_of_find_none c key now fr s t hfind]
    exact revoked_preserved_refl s.tokens
  | some ru =>
    obtain ⟨r, u⟩ := ru
    by_cases hexp : r.expires_at < now
    · rw [refresh_expired c key now fr s t r u hfind hexp]
      exact revoked_preserved_map _ (revoke_fn_monotone r.token_id) s.tokens
    · rw [refresh_success c key now fr s t r u hfind hexp]
      exact revoked_preserved_map_append _ (revoke_fn_monotone r.token_id) s.tokens _

theorem logout_preserves (s : AppState) (uid : Nat) :
    revoked_preserved s.tokens (((logout s uid).2).tokens) := by
  unfold logout
  by_cases h : user_exists s uid = true
  · simp only [h, Bool.not_true, Bool.false_eq_true, if_false]
    exact revoked_preserved_map _ (revoke_all_fn_monotone uid) s.tokens
  · simp only [Bool.not_eq_true] at h
    simp only [h, Bool.not_false, if_true]
    exact revoked_preserved_refl s.tokens

theorem whoami_preserves (s : AppState) (uid : Nat) :
    revoked_preserved s.tokens (((get_user_by_id_service s uid).2).tokens) := by
  unfold get_user_by_id_service
  cases h : get_by_id s uid with
  | none => exact revoked_preserved_refl s.tokens
  | some u => exact revoked_preserved_refl s.tokens

/-- C9: revocation is one-way: each of the five operations of the subsystem
(register, login, refresh, logout, whoami) keeps the revoked flag of every
already-revoked refresh record set; no operation transitions a record from
Revoked back to Active. -/
theorem revocation_one_way (c : Crypto) (key : String) (now : Int) (fr : String)
    (s : AppState) (d : UserRegister) (cd : String)
    (email password t : String) (uid : Nat) :
    revoked_preserved s.tokens (((register c s d cd).2).tokens) ∧
    revoked_preserved s.tokens (((login c key now fr s email password).2).tokens) ∧
    revoked_preserved s.tokens (((refresh c key now fr s t).2).tokens) ∧
    revoked_preserved s.tokens (((logout s uid).2).tokens) ∧
    revoked_preserved s.tokens (((get_user_by_id_service s uid).2).tokens) :=
  ⟨by rw [register_tokens_eq c s d cd]; exact revoked_preserved_refl s.tokens,
   login_preserves c key now fr s email password,
   refresh_preserves c key now fr s t,
   logout_preserves s uid,
   whoami_preserves s uid⟩

/-- A live user owning one already-revoked refresh record. -/
def s9 : AppState :=
  { users := [{ user_id := 1, email := "w@x.y", password_hash := "pw#h",
                first_name := "W", last_name := "X", role := "PARENT",
                school_id := some 1, phone := none, address := none,
                created_date := "2024-01-01", is_deleted := false }],
    schools := [],
    tokens := [{ token_id := 1, user_id := 1, token_hash := "x#s",
                 expires_at := 5, created_at := 0, revoked := true }] }

/-- C9 witness: a concrete revoked record stays revoked across a logout. -/
theorem revocation_one_way_witness :
    (s9.tokens.get ⟨0, by decide⟩).revoked = true ∧
    (((logout s9 1).2).tokens.get ⟨0, by decide⟩).revoked = true :=
  ⟨by decide,
   (revocation_one_way cW "k" 0 "f" s9 regNoSchool "2024-02-02" "e" "p" "t" 1).2.2.2.1
     0 (by decide) (by decide) (by decide)⟩

end DaycareAuth
